import Mathlib

/-!
Shallow embedding of src/logger.js, a store-and-forward log shipping agent
for React Native clients, together with proofs about the connectivity
classifier, the local buffer trim policy, the flush coordinator and the
dispatch decision engine.

External collaborators (NetInfo, the remote sink, AsyncStorage, JSON
serialization) are modelled at their interface: their outcomes are passed
in as explicit parameters, and each embedded function returns a trace
recording the calls it made and the resulting persisted-buffer state.
JavaScript exceptions are modelled with Except; functions whose exceptions
are all caught internally are total.
-/

namespace RNLogger

/-- Model of a JavaScript runtime value, as far as the logger inspects one:
the typeof tag and the rendering used in the formatted log line. Structured
values (objects and arrays) carry their JSON serialization opaquely, since
the logger never looks inside them. -/
inductive JsVal where
  | undef
  | nul
  | bool (b : Bool)
  | num (n : Int)
  | str (s : String)
  | object (json : String)
  | array (json : String)
deriving DecidableEq, Repr

/-- JavaScript typeof: typeof null and typeof of any object or array is the
text object; undefined has its own tag. -/
def typeofJs : JsVal → String
  | .undef => "undefined"
  | .nul => "object"
  | .bool _ => "boolean"
  | .num _ => "number"
  | .str _ => "string"
  | .object _ => "object"
  | .array _ => "object"

/-- Rendering of a value inside a template literal. For structured values
the model returns the carried serialization; the claims never inspect it. -/
def jsToString : JsVal → String
  | .undef => "undefined"
  | .nul => "null"
  | .bool true => "true"
  | .bool false => "false"
  | .num n => toString n
  | .str s => s
  | .object j => j
  | .array j => j

/-- JSON.stringify of a value as it is interpolated into the formatted log
line. Stringify of undefined yields the undefined value, which the template
literal renders as the text undefined. String escaping is elided; the
claims never inspect the serialized text. -/
def jsonStringifyInterp : JsVal → String
  | .undef => "undefined"
  | .nul => "null"
  | .bool true => "true"
  | .bool false => "false"
  | .num n => toString n
  | .str s => "\"" ++ s ++ "\""
  | .object j => j
  | .array j => j

/-- A JavaScript object with string keys and string values, modelled as its
insertion-ordered list of key-value pairs. Non-index string keys (such as
the date strings used by the logger) iterate in insertion order. -/
abbrev JsObj := List (String × String)

/-- Object.keys: the keys in insertion order. -/
def objKeys (o : JsObj) : List String := o.map Prod.fst

/-- Property assignment: an existing key keeps its position and takes the
new value; a fresh key is appended last. -/
def objSet (o : JsObj) (k v : String) : JsObj :=
  if k ∈ objKeys o then o.map fun p => if p.1 = k then (k, v) else p
  else o ++ [(k, v)]

/-- Property read, with a default for an absent key (the source only ever
reads keys that are present). -/
def objGetD (o : JsObj) (k d : String) : String :=
  match o.find? (fun p => p.1 == k) with
  | some p => p.2
  | none => d

/-- The details object attached to a NetInfo connectivity state; its
cellularGeneration field is null or a generation string such as 3g or 4g. -/
structure ConnDetails where
  cellularGeneration : Option String
deriving DecidableEq, Repr

/-- JavaScript truthiness of a possibly absent string: null, undefined and
the empty string are falsy, every other string is truthy. -/
def strTruthy : Option String → Bool
  | none => false
  | some s => s != ""

/-- checkUserIsBackOnFullConnection, src/logger.js lines 22 to 50. The
connection types are possibly absent strings; a details argument that is
null or undefined is modelled as none, and reading its cellularGeneration
property then raises a TypeError, modelled as Except.error. Note the third
branch of the source compares against the misspelled literal unknow. -/
def checkUserIsBackOnFullConnection (prevConnectionType : Option String)
    (prevConnectionDetails : Option ConnDetails)
    (connectionType : Option String)
    (connectionDetails : Option ConnDetails) : Except Unit Bool :=
  if strTruthy prevConnectionType = false ∧ connectionType = some "wifi" then
    .ok true
  else if prevConnectionType = some "none" ∧ connectionType = some "wifi" then
    .ok true
  else if prevConnectionType = some "unknow" ∧ connectionType = some "wifi" then
    .ok true
  else if prevConnectionType = some "cellular" then
    match prevConnectionDetails with
    | none => .error ()
    | some pd =>
      if strTruthy pd.cellularGeneration = true ∧
          pd.cellularGeneration ≠ some "4g" then
        match connectionDetails with
        | none => .error ()
        | some cd =>
          if strTruthy cd.cellularGeneration = true ∧
              cd.cellularGeneration = some "4g" then .ok true
          else .ok false
      else .ok false
  else .ok false

/-- Outcome of the external asyncRemoveItem collaborator: the removal
succeeds, or it reports an error value (removal not confirmed, buffer left
in place), or it throws. -/
inductive RemoveOutcome where
  | success
  | failed
  | threw
deriving DecidableEq, Repr

/-- Trace of one attemptToEmptyLocalLogs call: the persisted buffer after
the call, and whether the bulk send and the remove were invoked. The
function itself is total because the source catches every exception. -/
structure FlushTrace where
  finalBuffer : Option String
  bulkSendCalled : Bool
  removeCalled : Bool
deriving DecidableEq, Repr

/-- attemptToEmptyLocalLogs, src/logger.js lines 62 to 107. Parameters model
the collaborators: buf is the persisted buffer under the LOGGER key (none
when absent, in which case checkAsyncStorage returns a falsy value);
readThrows models checkAsyncStorage throwing; parseThrows models JSON.parse
throwing on the stored text; send is the bulkSendLog outcome (ok with a
truthy or falsy result, or a thrown error); remove is the asyncRemoveItem
outcome. -/
def attemptToEmptyLocalLogs (buf : Option String)
    (readThrows parseThrows : Bool) (send : Except Unit Bool)
    (remove : RemoveOutcome) : FlushTrace :=
  if readThrows then ⟨buf, false, false⟩
  else
    match buf with
    | none => ⟨none, false, false⟩
    | some s =>
      if parseThrows then ⟨some s, false, false⟩
      else
        match send with
        | .error _ => ⟨some s, true, false⟩
        | .ok result =>
          if result then
            match remove with
            | .success => ⟨none, true, true⟩
            | .failed => ⟨some s, true, true⟩
            | .threw => ⟨some s, true, true⟩
          else ⟨some s, true, false⟩

/-- checkArguments, src/logger.js lines 117 to 132: type and message must
be strings and extra must have typeof object (which admits null, plain
objects and arrays). -/
def checkArguments (type message extra : JsVal) : Bool :=
  typeofJs type == "string" && typeofJs message == "string" &&
    typeofJs extra == "object"

/-- The formatted line stored for one entry, template literal of
src/logger.js line 149. -/
def logLine (type message extra : JsVal) : String :=
  jsToString type ++ " - " ++ jsToString message ++ " - extra data : " ++
    jsonStringifyInterp extra

/-- formatLogEntry, src/logger.js lines 145 to 153: spread-copy the prior
log (spreading null yields the empty object) and assign the formatted line
under the current date key, passed here as the parameter now. -/
def formatLogEntry (type message extra : JsVal) (now : String)
    (parsedErrorLog : Option JsObj) : JsObj :=
  objSet (parsedErrorLog.getD []) now (logLine type message extra)

/-- Loop of removeKeysFromErrorLog, src/logger.js lines 173 to 177: index
counts down from the entry count n while index is greater than n divided by
two in fractional JavaScript division, that is while n is less than twice
the index; each pass copies the key at position index minus one, and its
value looked up by key, into the object under construction. -/
def trimGo (old : JsObj) (n : Nat) : Nat → JsObj → JsObj
  | 0, newLog => newLog
  | i + 1, newLog =>
    if n < 2 * (i + 1) then
      trimGo old n i
        (objSet newLog ((objKeys old).getD i "")
          (objGetD old ((objKeys old).getD i "") ""))
    else newLog

/-- removeKeysFromErrorLog, src/logger.js lines 166 to 179. -/
def removeKeysFromErrorLog (parsedErrorLog : JsObj) : JsObj :=
  trimGo parsedErrorLog parsedErrorLog.length parsedErrorLog.length []

/-- Trace of one logLocally call: whether saveInAsyncStorage was invoked
and, when it was, the serialized buffer it was asked to persist. -/
structure LocalTrace where
  wrote : Bool
  saved : Option String
deriving DecidableEq, Repr

/-- logLocally, src/logger.js lines 188 to 233. Collaborator parameters:
stringify and parse model JSON.stringify and JSON.parse (parse returning
none models a thrown parse error, caught by the source); maxSize is the
MAX_LOCAL_ERROR_LOG_SIZE constant; now is the current date key; buf is the
persisted buffer; readThrows models checkAsyncStorage throwing. Only the
severities warn and error are buffered; the stored size estimate is the
stored text length times eight. -/
def logLocally (stringify : JsObj → String) (parse : String → Option JsObj)
    (maxSize : Nat) (type message extra : JsVal) (now : String)
    (buf : Option String) (readThrows : Bool) : LocalTrace :=
  if type = JsVal.str "warn" ∨ type = JsVal.str "error" then
    if readThrows then ⟨false, none⟩
    else
      match buf with
      | none => ⟨true, some (stringify (formatLogEntry type message extra now none))⟩
      | some s =>
        match parse s with
        | none => ⟨false, none⟩
        | some parsedErrorLog =>
          if s.length * 8 < maxSize then
            ⟨true, some (stringify
              (formatLogEntry type message extra now (some parsedErrorLog)))⟩
          else
            ⟨true, some (stringify (formatLogEntry type message extra now
              (some (removeKeysFromErrorLog parsedErrorLog))))⟩
  else ⟨false, none⟩

/-- Outcome of the NetInfo.fetch probe: a state carrying isConnected, the
connection type and the details object, or a rejected promise. -/
inductive NetProbe where
  | ok (isConnected : Bool) (connectionType : Option String)
      (details : Option ConnDetails)
  | err
deriving DecidableEq, Repr

/-- Trace of one mainLog call: the value returned synchronously, whether
the connectivity probe resolved, whether sendLog was invoked, and whether
and with what serialized buffer saveInAsyncStorage was invoked. -/
structure MainTrace where
  retVal : JsVal
  probed : Bool
  sentRemote : Bool
  wrote : Bool
  saved : Option String
deriving DecidableEq, Repr

/-- mainLog, src/logger.js lines 245 to 286. The dev flag models the DEV
build constant. In dev mode the event is only printed and true is returned.
In normal mode invalid arguments return false before anything else runs;
otherwise the probe outcome decides the route: a rejected probe, or a
TypeError from reading details.cellularGeneration when the type is cellular
and details is null, is caught and drops the event; a connected wifi or
connected top-tier cellular state routes to sendLog; every other state
routes to logLocally. The function returns null on the probing path. -/
def mainLog (dev : Bool) (stringify : JsObj → String)
    (parse : String → Option JsObj) (maxSize : Nat)
    (type message extra : JsVal) (now : String) (probe : NetProbe)
    (buf : Option String) (readThrows : Bool) : MainTrace :=
  if dev then ⟨.bool true, false, false, false, none⟩
  else if checkArguments type message extra = false then
    ⟨.bool false, false, false, false, none⟩
  else
    match probe with
    | .err => ⟨.nul, true, false, false, none⟩
    | .ok isConnected connectionType details =>
      if connectionType = some "cellular" ∧ details = none then
        ⟨.nul, true, false, false, none⟩
      else
        if isConnected = true ∧ (connectionType = some "wifi" ∨
            (connectionType = some "cellular" ∧
              (if connectionType = some "cellular" then
                (details.getD ⟨none⟩).cellularGeneration
              else none) = some "4g")) then
          ⟨.nul, true, true, false, none⟩
        else
          let lt := logLocally stringify parse maxSize type message extra
            now buf readThrows
          ⟨.nul, true, false, lt.wrote, lt.saved⟩

/-- Default value of the extra parameter of the three public wrappers,
src/logger.js lines 288 to 298: extra defaults to null when the wrapper is
called with two arguments. -/
def wrapperExtraDefault : JsVal := JsVal.nul

/-- Public wrapper log, src/logger.js lines 288 to 290; a two-argument call
passes wrapperExtraDefault for extra. -/
def log (dev : Bool) (stringify : JsObj → String)
    (parse : String → Option JsObj) (maxSize : Nat)
    (message extra : JsVal) (now : String) (probe : NetProbe)
    (buf : Option String) (readThrows : Bool) : MainTrace :=
  mainLog dev stringify parse maxSize (.str "log") message extra now probe
    buf readThrows

/-- Public wrapper warn, src/logger.js lines 292 to 294. -/
def warn (dev : Bool) (stringify : JsObj → String)
    (parse : String → Option JsObj) (maxSize : Nat)
    (message extra : JsVal) (now : String) (probe : NetProbe)
    (buf : Option String) (readThrows : Bool) : MainTrace :=
  mainLog dev stringify parse maxSize (.str "warn") message extra now probe
    buf readThrows

/-- Public wrapper error, src/logger.js lines 296 to 298. -/
def error (dev : Bool) (stringify : JsObj → String)
    (parse : String → Option JsObj) (maxSize : Nat)
    (message extra : JsVal) (now : String) (probe : NetProbe)
    (buf : Option String) (readThrows : Bool) : MainTrace :=
  mainLog dev stringify parse maxSize (.str "error") message extra now probe
    buf readThrows

/-! Helper lemmas about the object model and the trim loop. -/

theorem objSet_fresh (o : JsObj) (k v : String) (h : k ∉ objKeys o) :
    objSet o k v = o ++ [(k, v)] := by
  simp [objSet, h]

theorem getElem_not_mem_drop_of_nodup (l : List String) (hl : l.Nodup)
    (i : Nat) (h : i < l.length) : l[i] ∉ l.drop (i + 1) := by
  intro hmem
  rw [List.mem_iff_getElem] at hmem
  obtain ⟨j, hj, hget⟩ := hmem
  rw [List.getElem_drop] at hget
  have heq := (List.Nodup.getElem_inj_iff hl).mp hget
  omega

theorem objKeys_getD_eq (o : JsObj) (i : Nat) (h : i < o.length) :
    (objKeys o).getD i "" = (o[i]).1 := by
  have hlen : i < (objKeys o).length := by simpa [objKeys] using h
  rw [List.getD_eq_getElem _ _ hlen]
  simp [objKeys]

theorem objGetD_key_at (o : JsObj) (hn : (objKeys o).Nodup) (i : Nat)
    (h : i < o.length) (d : String) : objGetD o (o[i]).1 d = (o[i]).2 := by
  induction o generalizing i with
  | nil => simp at h
  | cons p rest ih =>
    rw [objKeys, List.map_cons, List.nodup_cons] at hn
    obtain ⟨hp, hrest⟩ := hn
    cases i with
    | zero =>
      simp only [List.getElem_cons_zero]
      simp [objGetD, List.find?_cons_of_pos]
    | succ j =>
      have hj : j < rest.length := by simpa using h
      have hkmem : (rest[j]).1 ∈ objKeys rest :=
        List.mem_map_of_mem Prod.fst (List.getElem_mem hj)
      have hne : ¬ ((p.1 == (rest[j]).1) = true) := by
        intro hb
        exact hp (beq_iff_eq.mp hb ▸ hkmem)
      simp only [List.getElem_cons_succ]
      have hfind : List.find? (fun q => q.1 == (rest[j]).1) (p :: rest) =
          List.find? (fun q => q.1 == (rest[j]).1) rest :=
        List.find?_cons_of_neg _ hne
      have hstep : objGetD (p :: rest) ((rest[j]).1) d = objGetD rest ((rest[j]).1) d := by
        unfold objGetD
        rw [hfind]
      rw [hstep]
      exact ih hrest j hj

theorem trimGo_eq_reverse_drop (old : JsObj) (hn : (objKeys old).Nodup) :
    ∀ index, index ≤ old.length →
      trimGo old old.length index ((old.drop index).reverse) =
        (old.drop (min index (old.length / 2))).reverse := by
  intro index
  induction index with
  | zero =>
    intro _
    simp [trimGo]
  | succ i ih =>
    intro hle
    have hi : i < old.length := hle
    rw [trimGo]
    by_cases hc : old.length < 2 * (i + 1)
    · rw [if_pos hc]
      have hkey : (objKeys old).getD i "" = (old[i]).1 := objKeys_getD_eq old i hi
      have hval : objGetD old ((old[i]).1) "" = (old[i]).2 :=
        objGetD_key_at old hn i hi ""
      have hknotin : (old[i]).1 ∉ objKeys ((old.drop (i + 1)).reverse) := by
        have hobj : objKeys ((old.drop (i + 1)).reverse) =
            ((objKeys old).drop (i + 1)).reverse := by
          simp [objKeys, List.map_reverse, List.map_drop]
        rw [hobj, List.mem_reverse]
        have hki : i < (objKeys old).length := by simpa [objKeys] using hi
        have hkeq : (old[i]).1 = (objKeys old)[i] := by simp [objKeys]
        rw [hkeq]
        exact getElem_not_mem_drop_of_nodup (objKeys old) hn i hki
      rw [hkey, hval, objSet_fresh _ _ _ hknotin]
      have hstep : (old.drop (i + 1)).reverse ++ [((old[i]).1, (old[i]).2)] =
          (old.drop i).reverse := by
        rw [List.drop_eq_getElem_cons hi, List.reverse_cons _ _]
      rw [hstep, ih (Nat.le_of_lt hi)]
      have hmin : min i (old.length / 2) = min (i + 1) (old.length / 2) := by
        omega
      rw [hmin]
    · rw [if_neg hc]
      have hmin : min (i + 1) (old.length / 2) = i + 1 := by omega
      rw [hmin]

theorem removeKeysFromErrorLog_eq_reverse_drop (old : JsObj)
    (hn : (objKeys old).Nodup) :
    removeKeysFromErrorLog old = (old.drop (old.length / 2)).reverse := by
  have h := trimGo_eq_reverse_drop old hn old.length le_rfl
  rw [List.drop_length] at h
  have hmin : min old.length (old.length / 2) = old.length / 2 := by omega
  rw [hmin] at h
  simpa [removeKeysFromErrorLog] using h

theorem formatLogEntry_append (type message extra : JsVal) (now : String)
    (prior : JsObj) (hfresh : now ∉ objKeys prior) :
    formatLogEntry type message extra now (some prior) =
      prior ++ [(now, logLine type message extra)] := by
  simp [formatLogEntry, objSet, hfresh]

/-! Claim theorems. -/

/-- C4: for every buffer of N entries with distinct keys, trimming
(removeKeysFromErrorLog) retains exactly the chronologically newest
half of the entries, that is the last N minus N over two, equivalently
the ceiling of N over two, positions of the insertion-ordered buffer,
with their keys and values unchanged, and discards all the rest, with no
age-based or severity-based exceptions: a pair belongs to the trimmed
buffer exactly when it belongs to the newest half of the input. -/
theorem removeKeys_retains_newest_half (old : JsObj)
    (hn : (objKeys old).Nodup) :
    (removeKeysFromErrorLog old).length = (old.length + 1) / 2 ∧
    ∀ p : String × String,
      p ∈ removeKeysFromErrorLog old ↔ p ∈ old.drop (old.length / 2) := by
  rw [removeKeysFromErrorLog_eq_reverse_drop old hn]
  constructor
  · rw [List.length_reverse, List.length_drop]
    omega
  · intro p
    rw [List.mem_reverse]

/-- C4 witness: the theorem evaluated on a concrete three-entry buffer. -/
theorem removeKeys_retains_newest_half_witness :
    (objKeys [("a", "1"), ("b", "2"), ("c", "3")]).Nodup ∧
    ((removeKeysFromErrorLog [("a", "1"), ("b", "2"), ("c", "3")]).length =
        (([("a", "1"), ("b", "2"), ("c", "3")] : JsObj).length + 1) / 2 ∧
      ∀ p : String × String,
        p ∈ removeKeysFromErrorLog [("a", "1"), ("b", "2"), ("c", "3")] ↔
          p ∈ ([("a", "1"), ("b", "2"), ("c", "3")] : JsObj).drop
            (([("a", "1"), ("b", "2"), ("c", "3")] : JsObj).length / 2)) :=
  ⟨by decide, removeKeys_retains_newest_half _ (by decide)⟩

/-- C5 counterexample: on the three-entry buffer below, whose insertion
order is chronological, the trim emits the retained entries newest first,
so the trimmed mapping is not an order-preserving selection (sublist) of
the input and its insertion order no longer corresponds to chronological
order. -/
theorem removeKeys_reverses_retained_order :
    removeKeysFromErrorLog [("k1", "v1"), ("k2", "v2"), ("k3", "v3")] =
      [("k3", "v3"), ("k2", "v2")] ∧
    ¬ (removeKeysFromErrorLog
        [("k1", "v1"), ("k2", "v2"), ("k3", "v3")]).Sublist
        [("k1", "v1"), ("k2", "v2"), ("k3", "v3")] := by
  constructor
  · rfl
  · decide

/-- C5 amended: appending via formatLogEntry preserves insertion order and
places the new (chronologically newest) entry last, but trimming via
removeKeysFromErrorLog emits the retained newest half in reversed,
newest-first insertion order. -/
theorem buffer_update_order_amended (type message extra : JsVal)
    (now : String) (prior : JsObj) (hfresh : now ∉ objKeys prior)
    (hn : (objKeys prior).Nodup) :
    formatLogEntry type message extra now (some prior) =
      prior ++ [(now, logLine type message extra)] ∧
    removeKeysFromErrorLog prior = (prior.drop (prior.length / 2)).reverse :=
  ⟨formatLogEntry_append type message extra now prior hfresh,
    removeKeysFromErrorLog_eq_reverse_drop prior hn⟩

/-- C5 amended witness: the amended statement evaluated on a concrete
two-entry buffer and a fresh key. -/
theorem buffer_update_order_amended_witness :
    ("c" ∉ objKeys [("a", "x"), ("b", "y")]) ∧
    (objKeys [("a", "x"), ("b", "y")]).Nodup ∧
    (formatLogEntry (.str "warn") (.str "hi") .nul "c"
        (some [("a", "x"), ("b", "y")]) =
      [("a", "x"), ("b", "y")] ++ [("c", logLine (.str "warn") (.str "hi") .nul)] ∧
    removeKeysFromErrorLog [("a", "x"), ("b", "y")] =
      (([("a", "x"), ("b", "y")] : JsObj).drop
        (([("a", "x"), ("b", "y")] : JsObj).length / 2)).reverse) :=
  ⟨by decide, by decide,
    buffer_update_order_amended (.str "warn") (.str "hi") .nul "c" _
      (by decide) (by decide)⟩

/-- C7: the code compares the previous connection type against the
misspelled literal unknow, so the transition from the NetInfo medium
unknown to wifi, which the spec classifies as an upgrade, falls through
every branch and returns false. This evaluates the classifier at that
failing input. -/
theorem classifier_unknown_to_wifi_returns_false :
    checkUserIsBackOnFullConnection (some "unknown") (some ⟨none⟩)
      (some "wifi") (some ⟨none⟩) = .ok false := by
  rfl

/-- C9: whenever the previous medium is cellular and the previous details
argument is absent (null or undefined), the classifier reads the
cellularGeneration property of a missing object and throws a TypeError
instead of returning a boolean, for every current medium and current
details; so totality of the classifier requires previous details to be a
present object whenever the previous medium is cellular. -/
theorem classifier_throws_without_prev_details (connectionType : Option String)
    (connectionDetails : Option ConnDetails) :
    checkUserIsBackOnFullConnection (some "cellular") none connectionType
      connectionDetails = .error () := by
  rfl

/-- C2: for every snapshot pair in which both mediums are cellular and both
details objects are present, the classifier returns true exactly when the
previous generation is present, not top-tier 4g, and the current generation
is top-tier; it returns a boolean (never throws), and an absent previous
generation never yields true. The hypothesis excludes the empty string,
which is not a NetInfo generation value, so that present coincides with
JavaScript truthiness. -/
theorem classifier_cellular_upgrade_iff (pd cd : ConnDetails)
    (hpd : pd.cellularGeneration ≠ some "") :
    ((checkUserIsBackOnFullConnection (some "cellular") (some pd)
        (some "cellular") (some cd) = .ok true) ↔
      (pd.cellularGeneration.isSome = true ∧
        pd.cellularGeneration ≠ some "4g" ∧
        cd.cellularGeneration = some "4g")) ∧
    (pd.cellularGeneration = none →
      checkUserIsBackOnFullConnection (some "cellular") (some pd)
        (some "cellular") (some cd) = .ok false) ∧
    ((checkUserIsBackOnFullConnection (some "cellular") (some pd)
        (some "cellular") (some cd) = .ok true) ∨
      (checkUserIsBackOnFullConnection (some "cellular") (some pd)
        (some "cellular") (some cd) = .ok false)) := by
  cases hg : pd.cellularGeneration with
  | none =>
    simp [checkUserIsBackOnFullConnection, strTruthy, hg]
  | some g =>
    have hge : g ≠ "" := fun h => hpd (by rw [hg, h])
    by_cases hg4 : g = "4g"
    · subst hg4
      simp [checkUserIsBackOnFullConnection, strTruthy, hg]
    · cases hc : cd.cellularGeneration with
      | none =>
        simp [checkUserIsBackOnFullConnection, strTruthy, hg, hge, hg4, hc]
      | some c =>
        by_cases hc4 : c = "4g"
        · subst hc4
          simp [checkUserIsBackOnFullConnection, strTruthy, hg, hge, hg4, hc]
        · simp [checkUserIsBackOnFullConnection, strTruthy, hg, hge, hg4, hc,
            hc4]

/-- C2 witness: the theorem evaluated on the concrete upgrade 3g to 4g. -/
theorem classifier_cellular_upgrade_iff_witness :
    ((ConnDetails.mk (some "3g")).cellularGeneration ≠ some "") ∧
    (((checkUserIsBackOnFullConnection (some "cellular") (some ⟨some "3g"⟩)
        (some "cellular") (some ⟨some "4g"⟩) = .ok true) ↔
      ((ConnDetails.mk (some "3g")).cellularGeneration.isSome = true ∧
        (ConnDetails.mk (some "3g")).cellularGeneration ≠ some "4g" ∧
        (ConnDetails.mk (some "4g")).cellularGeneration = some "4g")) ∧
    ((ConnDetails.mk (some "3g")).cellularGeneration = none →
      checkUserIsBackOnFullConnection (some "cellular") (some ⟨some "3g"⟩)
        (some "cellular") (some ⟨some "4g"⟩) = .ok false) ∧
    ((checkUserIsBackOnFullConnection (some "cellular") (some ⟨some "3g"⟩)
        (some "cellular") (some ⟨some "4g"⟩) = .ok true) ∨
      (checkUserIsBackOnFullConnection (some "cellular") (some ⟨some "3g"⟩)
        (some "cellular") (some ⟨some "4g"⟩) = .ok false))) :=
  ⟨by decide, classifier_cellular_upgrade_iff ⟨some "3g"⟩ ⟨some "4g"⟩ (by decide)⟩

/-- C3: for every snapshot pair with present details objects in which the
current medium is not wifi and the pair is not a cellular generation
upgrade (previous generation present, not 4g, current generation 4g), the
classifier returns false; in particular it never returns true on such
ambiguous or unknown inputs. -/
theorem classifier_false_without_upgrade (prevConnectionType : Option String)
    (pd : ConnDetails) (connectionType : Option String) (cd : ConnDetails)
    (hct : connectionType ≠ some "wifi")
    (hup : ¬ (pd.cellularGeneration.isSome = true ∧
      pd.cellularGeneration ≠ some "4g" ∧
      cd.cellularGeneration = some "4g")) :
    checkUserIsBackOnFullConnection prevConnectionType (some pd)
      connectionType (some cd) = .ok false := by
  unfold checkUserIsBackOnFullConnection
  rw [if_neg (fun h => hct h.2), if_neg (fun h => hct h.2),
    if_neg (fun h => hct h.2)]
  by_cases hpt : prevConnectionType = some "cellular"
  · rw [if_pos hpt]
    dsimp only
    by_cases h1 : strTruthy pd.cellularGeneration = true ∧
        pd.cellularGeneration ≠ some "4g"
    · rw [if_pos h1, if_neg]
      intro h2
      apply hup
      refine ⟨?_, h1.2, h2.2⟩
      cases hg : pd.cellularGeneration with
      | none => rw [hg] at h1; simp [strTruthy] at h1
      | some g => simp
    · rw [if_neg h1]
  · rw [if_neg hpt]

/-- C3 witness: the theorem evaluated on a concrete non-upgrade pair,
cellular 3g to cellular 3g. -/
theorem classifier_false_without_upgrade_witness :
    ((some "cellular" : Option String) ≠ some "wifi") ∧
    (¬ ((ConnDetails.mk (some "3g")).cellularGeneration.isSome = true ∧
      (ConnDetails.mk (some "3g")).cellularGeneration ≠ some "4g" ∧
      (ConnDetails.mk (some "3g")).cellularGeneration = some "4g")) ∧
    checkUserIsBackOnFullConnection (some "cellular") (some ⟨some "3g"⟩)
      (some "cellular") (some ⟨some "3g"⟩) = .ok false :=
  ⟨by decide, by decide,
    classifier_false_without_upgrade (some "cellular") ⟨some "3g"⟩
      (some "cellular") ⟨some "3g"⟩ (by decide) (by decide)⟩

/-- C1: for every buffer state and every collaborator outcome, the flush
coordinator attemptToEmptyLocalLogs (a) on an absent buffer performs no
send and no clear and completes (the model is total because the source
catches every exception), (b) invokes the storage clear exactly when a
batch send happened and reported a truthy result, (c) when the external
clear succeeds and storage and parsing do not fail, ends with an absent
buffer exactly when the batch send reported success, and (d) on a failed
or failing (throwing) batch send leaves the persisted buffer byte-identical
to its state before the call. -/
theorem attemptFlush_no_loss (buf : Option String)
    (readThrows parseThrows : Bool) (send : Except Unit Bool)
    (remove : RemoveOutcome) :
    (buf = none →
      attemptToEmptyLocalLogs buf readThrows parseThrows send remove =
        ⟨none, false, false⟩) ∧
    ((attemptToEmptyLocalLogs buf readThrows parseThrows send
        remove).removeCalled = true ↔
      ((attemptToEmptyLocalLogs buf readThrows parseThrows send
          remove).bulkSendCalled = true ∧ send = .ok true)) ∧
    (remove = .success → readThrows = false → parseThrows = false →
      ∀ s, buf = some s →
        ((attemptToEmptyLocalLogs buf readThrows parseThrows send
            remove).finalBuffer = none ↔ send = .ok true)) ∧
    (send ≠ .ok true →
      (attemptToEmptyLocalLogs buf readThrows parseThrows send
          remove).finalBuffer = buf) := by
  cases buf <;> cases readThrows <;> cases parseThrows <;> cases remove <;>
      rcases send with ⟨⟨⟩⟩ | ⟨b⟩ <;> try cases b
  all_goals simp [attemptToEmptyLocalLogs]

/-- C1 witness: the theorem evaluated at a present buffer with a
successful batch send and a successful clear. -/
theorem attemptFlush_no_loss_witness :
    ((some "x" : Option String) = none →
      attemptToEmptyLocalLogs (some "x") false false (.ok true) .success =
        ⟨none, false, false⟩) ∧
    ((attemptToEmptyLocalLogs (some "x") false false (.ok true)
        .success).removeCalled = true ↔
      ((attemptToEmptyLocalLogs (some "x") false false (.ok true)
          .success).bulkSendCalled = true ∧
        (Except.ok true : Except Unit Bool) = .ok true)) ∧
    (RemoveOutcome.success = .success → false = false → false = false →
      ∀ s, (some "x" : Option String) = some s →
        ((attemptToEmptyLocalLogs (some "x") false false (.ok true)
            .success).finalBuffer = none ↔
          (Except.ok true : Except Unit Bool) = .ok true)) ∧
    ((Except.ok true : Except Unit Bool) ≠ .ok true →
      (attemptToEmptyLocalLogs (some "x") false false (.ok true)
          .success).finalBuffer = some "x") :=
  attemptFlush_no_loss (some "x") false false (.ok true) .success

theorem logLocally_wrote_of_actionable (stringify : JsObj → String)
    (parse : String → Option JsObj) (maxSize : Nat)
    (type message extra : JsVal) (now : String) (buf : Option String)
    (ht : type = JsVal.str "warn" ∨ type = JsVal.str "error")
    (hparse : ∀ s, buf = some s → parse s ≠ none) :
    (logLocally stringify parse maxSize type message extra now buf
      false).wrote = true := by
  cases buf with
  | none => simp [logLocally, ht]
  | some s =>
    obtain ⟨p, hp⟩ := Option.ne_none_iff_exists.mp (hparse s rfl)
    by_cases hsz : s.length * 8 < maxSize <;>
      simp [logLocally, ht, hp.symm, hsz]

theorem logLocally_skips_of_not_actionable (stringify : JsObj → String)
    (parse : String → Option JsObj) (maxSize : Nat)
    (type message extra : JsVal) (now : String) (buf : Option String)
    (readThrows : Bool)
    (ht : ¬ (type = JsVal.str "warn" ∨ type = JsVal.str "error")) :
    logLocally stringify parse maxSize type message extra now buf
      readThrows = ⟨false, none⟩ := by
  simp [logLocally, ht]

theorem mainLog_weak_goes_local (stringify : JsObj → String)
    (parse : String → Option JsObj) (maxSize : Nat)
    (type message extra : JsVal) (now : String) (buf : Option String)
    (readThrows : Bool) (isConnected : Bool) (connectionType : Option String)
    (details : Option ConnDetails)
    (hvalid : checkArguments type message extra = true)
    (hdetails : ¬ (connectionType = some "cellular" ∧ details = none))
    (hweak : ¬ (isConnected = true ∧ (connectionType = some "wifi" ∨
      (connectionType = some "cellular" ∧
        (if connectionType = some "cellular" then
          (details.getD ⟨none⟩).cellularGeneration
        else none) = some "4g")))) :
    mainLog false stringify parse maxSize type message extra now
        (.ok isConnected connectionType details) buf readThrows =
      ⟨.nul, true, false,
        (logLocally stringify parse maxSize type message extra now buf
          readThrows).wrote,
        (logLocally stringify parse maxSize type message extra now buf
          readThrows).saved⟩ := by
  unfold mainLog
  rw [if_neg (by simp), if_neg (by simp [hvalid])]
  dsimp only
  rw [if_neg hdetails, if_neg hweak]

/-- C6: in normal (non-dev) mode, for every dispatch call with valid
arguments where the connectivity probe resolves to a weak state
(disconnected, a medium that is neither wifi nor top-tier cellular, or
sub-top-tier cellular), and storage reads and parsing succeed, the event
is written to the local buffer exactly when its severity is warn or error;
an informational (log) event is dropped: nothing is written to the buffer
and nothing is sent remotely. -/
theorem dispatch_weak_buffers_only_actionable (stringify : JsObj → String)
    (parse : String → Option JsObj) (maxSize : Nat)
    (type message extra : JsVal) (now : String) (buf : Option String)
    (isConnected : Bool) (connectionType : Option String)
    (details : Option ConnDetails)
    (hvalid : checkArguments type message extra = true)
    (hdetails : ¬ (connectionType = some "cellular" ∧ details = none))
    (hweak : ¬ (isConnected = true ∧ (connectionType = some "wifi" ∨
      (connectionType = some "cellular" ∧
        (if connectionType = some "cellular" then
          (details.getD ⟨none⟩).cellularGeneration
        else none) = some "4g"))))
    (hparse : ∀ s, buf = some s → parse s ≠ none) :
    ((mainLog false stringify parse maxSize type message extra now
        (.ok isConnected connectionType details) buf false).wrote = true ↔
      (type = JsVal.str "warn" ∨ type = JsVal.str "error")) ∧
    (type = JsVal.str "log" →
      (mainLog false stringify parse maxSize type message extra now
        (.ok isConnected connectionType details) buf false).wrote = false ∧
      (mainLog false stringify parse maxSize type message extra now
        (.ok isConnected connectionType details) buf false).saved = none) ∧
    (mainLog false stringify parse maxSize type message extra now
      (.ok isConnected connectionType details) buf false).sentRemote =
        false := by
  rw [mainLog_weak_goes_local stringify parse maxSize type message extra now
    buf false isConnected connectionType details hvalid hdetails hweak]
  refine ⟨?_, ?_, rfl⟩
  · by_cases ht : type = JsVal.str "warn" ∨ type = JsVal.str "error"
    · simp [ht, logLocally_wrote_of_actionable stringify parse maxSize type
        message extra now buf ht hparse]
    · simp [ht, logLocally_skips_of_not_actionable stringify parse maxSize
        type message extra now buf false ht]
  · intro hlog
    have ht : ¬ (type = JsVal.str "warn" ∨ type = JsVal.str "error") := by
      subst hlog
      simp
    simp [logLocally_skips_of_not_actionable stringify parse maxSize type
      message extra now buf false ht]

/-- C6 witness: an error-severity event dispatched while disconnected on
the medium none is buffered, and the theorem applies at that input. -/
theorem dispatch_weak_buffers_only_actionable_witness :
    (checkArguments (.str "error") (.str "m") .nul = true) ∧
    (((mainLog false (fun _ => "S") (fun _ => none) 0 (.str "error")
        (.str "m") .nul "t" (.ok false (some "none") none) none
        false).wrote = true ↔
      ((JsVal.str "error") = JsVal.str "warn" ∨
        (JsVal.str "error") = JsVal.str "error")) ∧
    ((JsVal.str "error") = JsVal.str "log" →
      (mainLog false (fun _ => "S") (fun _ => none) 0 (.str "error")
        (.str "m") .nul "t" (.ok false (some "none") none) none
        false).wrote = false ∧
      (mainLog false (fun _ => "S") (fun _ => none) 0 (.str "error")
        (.str "m") .nul "t" (.ok false (some "none") none) none
        false).saved = none) ∧
    (mainLog false (fun _ => "S") (fun _ => none) 0 (.str "error")
      (.str "m") .nul "t" (.ok false (some "none") none) none
      false).sentRemote = false) :=
  ⟨rfl, dispatch_weak_buffers_only_actionable (fun _ => "S") (fun _ => none)
    0 (.str "error") (.str "m") .nul "t" none false (some "none") none rfl
    (by simp) (by simp) (by simp)⟩

/-- C8: in normal (non-dev) mode, every dispatch call whose arguments fail
validation returns the failure indicator false and performs no
connectivity probe, no remote send and no buffer write. -/
theorem dispatch_rejects_invalid_args (stringify : JsObj → String)
    (parse : String → Option JsObj) (maxSize : Nat)
    (type message extra : JsVal) (now : String) (probe : NetProbe)
    (buf : Option String) (readThrows : Bool)
    (hinvalid : checkArguments type message extra = false) :
    mainLog false stringify parse maxSize type message extra now probe buf
      readThrows = ⟨.bool false, false, false, false, none⟩ := by
  simp [mainLog, hinvalid]

/-- C8 witness: a numeric severity fails validation and is rejected with
no probe, no send and no write. -/
theorem dispatch_rejects_invalid_args_witness :
    (checkArguments (.num 0) (.str "m") .nul = false) ∧
    mainLog false (fun _ => "S") (fun _ => none) 0 (.num 0) (.str "m") .nul
      "t" .err none false = ⟨.bool false, false, false, false, none⟩ :=
  ⟨rfl, dispatch_rejects_invalid_args (fun _ => "S") (fun _ => none) 0
    (.num 0) (.str "m") .nul "t" .err none false rfl⟩

/-- C10: argument validation accepts extra equal to null (the wrapper
default) and accepts arrays, both having typeof object, while rejecting an
omitted (undefined) extra and every primitive extra; and the public
wrappers log, warn and error forward to mainLog with their fixed severity
string, so a two-argument call through the public interface passes
wrapperExtraDefault, which is null and satisfies the structured-extra
check. -/
theorem checkArguments_extra_policy (t m : JsVal)
    (ht : typeofJs t = "string") (hm : typeofJs m = "string") :
    checkArguments t m wrapperExtraDefault = true ∧
    typeofJs wrapperExtraDefault = "object" ∧
    (∀ s, checkArguments t m (.array s) = true) ∧
    checkArguments t m .undef = false ∧
    (∀ b, checkArguments t m (.bool b) = false) ∧
    (∀ n, checkArguments t m (.num n) = false) ∧
    (∀ s, checkArguments t m (.str s) = false) ∧
    (∀ dev stringify parse maxSize message now probe buf readThrows,
      log dev stringify parse maxSize message wrapperExtraDefault now probe
          buf readThrows =
        mainLog dev stringify parse maxSize (.str "log") message
          wrapperExtraDefault now probe buf readThrows ∧
      warn dev stringify parse maxSize message wrapperExtraDefault now probe
          buf readThrows =
        mainLog dev stringify parse maxSize (.str "warn") message
          wrapperExtraDefault now probe buf readThrows ∧
      error dev stringify parse maxSize message wrapperExtraDefault now
          probe buf readThrows =
        mainLog dev stringify parse maxSize (.str "error") message
          wrapperExtraDefault now probe buf readThrows) := by
  refine ⟨?_, rfl, ?_, ?_, ?_, ?_, ?_, ?_⟩
  · unfold checkArguments
    rw [ht, hm]
    rfl
  · intro s
    unfold checkArguments
    rw [ht, hm]
    rfl
  · unfold checkArguments
    rw [ht, hm]
    rfl
  · intro b
    unfold checkArguments
    rw [ht, hm]
    rfl
  · intro n
    unfold checkArguments
    rw [ht, hm]
    rfl
  · intro s
    unfold checkArguments
    rw [ht, hm]
    rfl
  · intro dev stringify parse maxSize message now probe buf readThrows
    exact ⟨rfl, rfl, rfl⟩

/-- C10 witness: the theorem applied at concrete string severity and
message values. -/
theorem checkArguments_extra_policy_witness :
    (typeofJs (.str "sev") = "string") ∧
    (typeofJs (.str "msg") = "string") ∧
    (checkArguments (.str "sev") (.str "msg") wrapperExtraDefault = true ∧
    typeofJs wrapperExtraDefault = "object" ∧
    (∀ s, checkArguments (.str "sev") (.str "msg") (.array s) = true) ∧
    checkArguments (.str "sev") (.str "msg") .undef = false ∧
    (∀ b, checkArguments (.str "sev") (.str "msg") (.bool b) = false) ∧
    (∀ n, checkArguments (.str "sev") (.str "msg") (.num n) = false) ∧
    (∀ s, checkArguments (.str "sev") (.str "msg") (.str s) = false) ∧
    (∀ dev stringify parse maxSize message now probe buf readThrows,
      log dev stringify parse maxSize message wrapperExtraDefault now probe
          buf readThrows =
        mainLog dev stringify parse maxSize (.str "log") message
          wrapperExtraDefault now probe buf readThrows ∧
      warn dev stringify parse maxSize message wrapperExtraDefault now probe
          buf readThrows =
        mainLog dev stringify parse maxSize (.str "warn") message
          wrapperExtraDefault now probe buf readThrows ∧
      error dev stringify parse maxSize message wrapperExtraDefault now
          probe buf readThrows =
        mainLog dev stringify parse maxSize (.str "error") message
          wrapperExtraDefault now probe buf readThrows)) :=
  ⟨rfl, rfl, checkArguments_extra_policy (.str "sev") (.str "msg") rfl rfl⟩

end RNLogger
